import Mathlib

/-!
# Species CRUD front-end: shallow embedding

A shallow embedding of the species-management front-end:

* `src/app/species/edit.tsx` — the zod `speciesSchema` and the
  `EditSpeciesDialog` component (author gate, `defaultValues`, `onSubmit`);
* `src/app/species/page.tsx` — `SpeciesList.fetchSpecies`, the realtime
  INSERT subscription handler, and `DeleteSpeciesButton.handleDelete`.

JavaScript numbers appearing in form values are modelled as `Rat` (plus an
explicit `JSNum.nan` for the `NaN` produced by `Number(...)` on non-numeric
strings).  Handlers are embedded as pure functions from their inputs and from
the backend's response to the list of effects they perform (requests issued,
toasts shown, reloads, state updates), so that "shows a toast", "does not
reload", and "issues exactly one request" are statements about the effect
list.
-/

/-- The `kingdom` enumeration (`z.enum([...])` in `edit.tsx`, line 26). -/
inductive Kingdom where
  | animalia
  | plantae
  | fungi
  | protista
  | archaea
  | bacteria
deriving DecidableEq, Repr

def kingdomToString : Kingdom → String
  | Kingdom.animalia => "Animalia"
  | Kingdom.plantae => "Plantae"
  | Kingdom.fungi => "Fungi"
  | Kingdom.protista => "Protista"
  | Kingdom.archaea => "Archaea"
  | Kingdom.bacteria => "Bacteria"

/-- `kingdoms.parse`: membership in the six enumerated values. -/
def parseKingdom (s : String) : Option Kingdom :=
  if s = "Animalia" then some Kingdom.animalia
  else if s = "Plantae" then some Kingdom.plantae
  else if s = "Fungi" then some Kingdom.fungi
  else if s = "Protista" then some Kingdom.protista
  else if s = "Archaea" then some Kingdom.archaea
  else if s = "Bacteria" then some Kingdom.bacteria
  else none

/-- One row of the `species` table (the `Species` interface in `page.tsx`,
lines 12–21). -/
structure Species where
  id : Int
  scientific_name : String
  common_name : Option String
  kingdom : Kingdom
  total_population : Option Rat
  image : Option String
  description : Option String
  author : String
deriving DecidableEq, Repr

/-- Model of the JavaScript `String.prototype.trim()` builtin (and of zod's
`.trim()`, which calls it): drop whitespace from both ends.  Written by
structural recursion over the character list so that concrete instances
compute inside the kernel. -/
def jsTrim (s : String) : String :=
  String.mk (((s.data.dropWhile Char.isWhitespace).reverse.dropWhile
    Char.isWhitespace).reverse)

/-- Result of the JavaScript `Number(...)` conversion: a number or `NaN`. -/
inductive JSNum where
  | nan
  | num (q : Rat)
deriving DecidableEq, Repr

def decDigitsVal (cs : List Char) : Nat :=
  cs.foldl (fun n c => n * 10 + (c.toNat - 48)) 0

/-- Model of the ECMAScript `Number(string)` conversion (a platform builtin,
not repository code), restricted to plain decimal literals: the string is
trimmed; an empty string converts to `0`; an optional sign followed by
digits, optionally with a `.` and fraction digits, converts to that decimal
value; anything else (hex, exponent forms, and all non-numeric text such as
`"abc"`) is `NaN`. -/
def jsNumber (s : String) : JSNum :=
  let t := (jsTrim s).data
  if t = [] then JSNum.num 0
  else
    let signed : Rat × List Char :=
      match t with
      | '-' :: rest => (-1, rest)
      | '+' :: rest => (1, rest)
      | l => (1, l)
    let sign := signed.1
    let body := signed.2
    let intPart := body.takeWhile Char.isDigit
    let rest := body.dropWhile Char.isDigit
    match rest with
    | [] => if intPart = [] then JSNum.nan else JSNum.num (sign * decDigitsVal intPart)
    | '.' :: frac =>
      if frac.all Char.isDigit && (!intPart.isEmpty || !frac.isEmpty) then
        JSNum.num (sign * ((decDigitsVal intPart : Rat)
          + (decDigitsVal frac : Rat) / ((10 : Rat) ^ frac.length)))
      else JSNum.nan
    | _ => JSNum.nan

/-- The raw value the form holds for `total_population`:
`z.union([z.string(), z.number()]).nullable()` (string, number, or null). -/
inductive PopInput where
  | str (s : String)
  | num (q : Rat)
  | null
deriving DecidableEq, Repr

/-- The schema's output for `total_population`: a number, or the empty
string the transform substitutes for every falsy input. -/
inductive PopValue where
  | emptyStr
  | num (q : Rat)
deriving DecidableEq, Repr

/-- The positivity refinement: `val === "" || (typeof val === "number" && val > 0)`
applied to the transform's output (`NaN > 0` is false in JavaScript). -/
def checkPositive : JSNum → Option PopValue
  | JSNum.nan => none
  | JSNum.num q => if 0 < q then some (PopValue.num q) else none

/-- `speciesSchema.total_population` (edit.tsx lines 33–39):
`transform((val) => (val ? Number(val) : ""))` then the positivity
refinement.  JavaScript truthiness: `null`, `""` and `0` are falsy and map
to `""`; every other string or number is passed to `Number(...)`. -/
def parseTotalPopulation : PopInput → Option PopValue
  | PopInput.null => some PopValue.emptyStr
  | PopInput.str s => if s = "" then some PopValue.emptyStr else checkPositive (jsNumber s)
  | PopInput.num q => if q = 0 then some PopValue.emptyStr else checkPositive (JSNum.num q)

def isSchemeChar (c : Char) : Bool :=
  c.isAlphanum || c = '+' || c = '-' || c = '.'

/-- Model of the WHATWG `new URL(s)` constructor succeeding (a platform
builtin, not repository code), which is what zod's `.url()` check runs: the
trimmed string must start with a scheme — a letter followed by
letters/digits/`+`/`-`/`.` — terminated by `:`.  In particular the empty
string and any colon-free string are invalid. -/
def isValidURL (s : String) : Bool :=
  match ((jsTrim s).data).span (fun c => c != ':') with
  | (scheme, rest) =>
    match rest with
    | ':' :: _ =>
      match scheme with
      | [] => false
      | c :: cs => c.isAlpha && cs.all isSchemeChar
    | _ => false

/-- `z.string().trim().min(1, "Scientific Name is required")` (edit.tsx
line 30): the output is the trimmed string, which must be non-empty. -/
def parseScientificName (s : String) : Option String :=
  if 1 ≤ (jsTrim s).length then some (jsTrim s) else none

/-- The `common_name` / `description` shape (edit.tsx lines 31 and 41):
`z.string().nullable().transform((val) => (val?.trim() ? val.trim() : ""))`.
Never fails; null and whitespace-only strings become `""`. -/
def parseOptionalText : Option String → String
  | none => ""
  | some s => if jsTrim s = "" then "" else jsTrim s

/-- `speciesSchema.image` (edit.tsx line 40):
`z.string().url().nullable().transform((val) => (val?.trim() ? val.trim() : ""))`.
`null` bypasses the URL check and is transformed to `""`; a string must pass
the URL check (so the empty string is rejected) and is then trimmed. -/
def parseImage : Option String → Option String
  | none => some ""
  | some s =>
    if isValidURL s then some (if jsTrim s = "" then "" else jsTrim s) else none

/-- The raw values the form submits (what `zodResolver(speciesSchema)`
receives). -/
structure FormInput where
  scientific_name : String
  common_name : Option String
  kingdom : String
  total_population : PopInput
  image : Option String
  description : Option String
deriving DecidableEq, Repr

/-- The schema's parsed output (`type FormData = z.infer<typeof speciesSchema>`). -/
structure FormData where
  scientific_name : String
  common_name : String
  kingdom : Kingdom
  total_population : PopValue
  image : String
  description : String
deriving DecidableEq, Repr

/-- `speciesSchema.parse`: the whole-object validation run by
`zodResolver(speciesSchema)`; it succeeds exactly when every field parses. -/
def speciesSchemaParse (i : FormInput) : Option FormData := do
  let sn ← parseScientificName i.scientific_name
  let k ← parseKingdom i.kingdom
  let tp ← parseTotalPopulation i.total_population
  let img ← parseImage i.image
  pure { scientific_name := sn
         common_name := parseOptionalText i.common_name
         kingdom := k
         total_population := tp
         image := img
         description := parseOptionalText i.description }

/-- The update payload `onSubmit` builds (edit.tsx lines 79–82): the parsed
form values with the empty-string `total_population` converted to null
(`none`). -/
structure SanitizedInput where
  scientific_name : String
  common_name : String
  kingdom : Kingdom
  total_population : Option Rat
  image : String
  description : String
deriving DecidableEq, Repr

/-- `sanitizedInput` (edit.tsx lines 79–82):
`{ ...input, total_population: input.total_population === "" ? null : input.total_population }`. -/
def sanitizedInput (input : FormData) : SanitizedInput :=
  { scientific_name := input.scientific_name
    common_name := input.common_name
    kingdom := input.kingdom
    total_population :=
      match input.total_population with
      | PopValue.emptyStr => none
      | PopValue.num q => some q
    image := input.image
    description := input.description }

/-- The observable effects of the Edit and Delete handlers: supabase
requests (each carrying the equality filters it was built with), toasts,
dialog/loading state changes, `window.location.reload()`, and — for
completeness of the frame statement — a `setSpecies` state write, which
neither handler ever emits. -/
inductive Effect where
  | updateRequest (id : Int) (author : String) (payload : SanitizedInput)
  | deleteRequest (id : Int) (author : String)
  | toastError (title message : String)
  | toastSuccess (title message : String)
  | closeDialog
  | setLoading (b : Bool)
  | reload
  | setSpeciesState (records : List Species)
deriving DecidableEq, Repr

/-- `EditSpeciesDialog.onSubmit` (edit.tsx lines 75–113), as a function of
the backend's response to the update request (`some msg` = error with
message `msg`, `none` = success): issue the update filtered by
`.eq("id", species.id).eq("author", userId)`; on error show the error toast
and return; on success close the dialog, reload, and show the success
toast. -/
def onSubmitEffects (sp : Species) (userId : String) (input : FormData)
    (result : Option String) : List Effect :=
  Effect.updateRequest sp.id userId (sanitizedInput input) ::
    match result with
    | some msg => [Effect.toastError "Error updating species" msg]
    | none =>
      [Effect.closeDialog, Effect.reload,
       Effect.toastSuccess "Species updated!"
         ("Successfully updated " ++ input.scientific_name ++ ".")]

/-- `form.handleSubmit(onSubmit)` with `zodResolver(speciesSchema)`
(edit.tsx lines 54–65 and 126): when validation fails `onSubmit` is never
invoked, so no effect is performed. -/
def handleSubmitEffects (sp : Species) (userId : String) (raw : FormInput)
    (result : Option String) : List Effect :=
  match speciesSchemaParse raw with
  | none => []
  | some input => onSubmitEffects sp userId input result

/-- `DeleteSpeciesButton.handleDelete` (page.tsx lines 132–153): set
loading, issue the delete filtered by `.eq("id", species.id).eq("author", userId)`,
clear loading, close the dialog; on error show the error toast and return;
on success show the success toast and reload. -/
def handleDeleteEffects (sp : Species) (userId : String)
    (result : Option String) : List Effect :=
  Effect.setLoading true ::
    Effect.deleteRequest sp.id userId ::
      Effect.setLoading false ::
        Effect.closeDialog ::
          match result with
          | some msg => [Effect.toastError "Error" msg]
          | none =>
            [Effect.toastSuccess "Species Deleted"
               (sp.scientific_name ++ " has been removed."),
             Effect.reload]

def isRequest : Effect → Bool
  | Effect.updateRequest _ _ _ => true
  | Effect.deleteRequest _ _ => true
  | _ => false

/-- The number of supabase requests an effect list issues. -/
def countRequests (l : List Effect) : Nat :=
  (l.filter isRequest).length

/-- The `defaultValues` the Edit form is initialised with (edit.tsx lines
56–63): each nullable column falls back to `""` via `??`. -/
def editDefaultValues (sp : Species) : FormInput :=
  { scientific_name := sp.scientific_name
    common_name := some (sp.common_name.getD "")
    kingdom := kingdomToString sp.kingdom
    total_population :=
      match sp.total_population with
      | some q => PopInput.num q
      | none => PopInput.str ""
    image := some (sp.image.getD "")
    description := some (sp.description.getD "") }

/-- What `EditSpeciesDialog` renders: the dialog with its form defaults. -/
structure EditDialogUI where
  defaults : FormInput
deriving DecidableEq, Repr

/-- `EditSpeciesDialog` (edit.tsx lines 50–70): returns null exactly when
the logged-in user is not the author of the species entry. -/
def EditSpeciesDialog (userId : String) (sp : Species) : Option EditDialogUI :=
  if userId ≠ sp.author then none
  else some { defaults := editDefaultValues sp }

/-- What `DeleteSpeciesButton` renders: the confirmation dialog naming the
species. -/
structure DeleteButtonUI where
  confirmName : String
deriving DecidableEq, Repr

/-- `DeleteSpeciesButton` (page.tsx lines 127–182, gate at line 156):
returns null exactly when the logged-in user is not the author. -/
def DeleteSpeciesButton (userId : String) (sp : Species) : Option DeleteButtonUI :=
  if userId ≠ sp.author then none
  else some { confirmName := sp.scientific_name }

/-- The session `supabase.auth.getSession()` may return. -/
structure Session where
  userId : String
deriving DecidableEq, Repr

/-- The observable effects of `SpeciesList.fetchSpecies` and the realtime
subscription handler. -/
inductive FetchEffect where
  | routerPush (route : String)
  | setUserId (id : String)
  | selectSpecies
  | consoleError (msg : String)
  | consoleLog
  | setSpecies (records : List Species)
  | setFilteredSpecies (records : List Species)
deriving DecidableEq, Repr

/-- `SpeciesList.fetchSpecies` (page.tsx lines 32–52), as a function of the
session and of the backend's answer to the `select("*")` query (`error msg`,
or `ok data` where `data` may be null and falls back to `[]`): without a
session, push `"/"` and return; otherwise record the user id, issue the
select, and either log the error or store the rows in both `species` and
`filteredSpecies`. -/
def fetchSpecies (sessionData : Option Session)
    (query : Except String (Option (List Species))) : List FetchEffect :=
  match sessionData with
  | none => [FetchEffect.routerPush "/"]
  | some s =>
    FetchEffect.setUserId s.userId ::
      FetchEffect.selectSpecies ::
        match query with
        | Except.error msg =>
          [FetchEffect.consoleError ("Error fetching species: " ++ msg)]
        | Except.ok data =>
          [FetchEffect.setSpecies (data.getD []),
           FetchEffect.setFilteredSpecies (data.getD [])]

/-- The component state of `SpeciesList` (page.tsx lines 27–29).
`filteredSpecies` is what the card grid renders (page.tsx line 98). -/
structure ListState where
  userId : Option String
  species : List Species
  filteredSpecies : List Species
deriving DecidableEq, Repr

def applyFetchEffect (st : ListState) : FetchEffect → ListState
  | FetchEffect.setUserId u => { st with userId := some u }
  | FetchEffect.setSpecies l => { st with species := l }
  | FetchEffect.setFilteredSpecies l => { st with filteredSpecies := l }
  | _ => st

def runEffects (st : ListState) (l : List FetchEffect) : ListState :=
  l.foldl applyFetchEffect st

/-- The payload a realtime INSERT notification carries. -/
structure InsertPayload where
  record : Species
deriving DecidableEq, Repr

/-- The subscription callback (page.tsx lines 61–71): on an INSERT event it
logs the payload and re-runs `fetchSpecies` in full. -/
def handleInsertNotification (_payload : InsertPayload)
    (sessionData : Option Session)
    (query : Except String (Option (List Species))) : List FetchEffect :=
  FetchEffect.consoleLog :: fetchSpecies sessionData query

/-- The backend's application of one row update: supabase
`.update(payload).eq("id", id).eq("author", author)` rewrites every row
matching both filters with the payload's columns. -/
def updateRow (id : Int) (author : String) (p : SanitizedInput)
    (r : Species) : Species :=
  if r.id == id && r.author == author then
    { r with scientific_name := p.scientific_name
             common_name := some p.common_name
             kingdom := p.kingdom
             total_population := p.total_population
             image := some p.image
             description := some p.description }
  else r

def applyUpdate (rows : List Species) (id : Int) (author : String)
    (p : SanitizedInput) : List Species :=
  rows.map (updateRow id author p)

/-- The backend's application of `.delete().eq("id", id).eq("author", author)`:
every row matching both filters is removed. -/
def applyDelete (rows : List Species) (id : Int) (author : String) : List Species :=
  rows.filter (fun r => !(r.id == id && r.author == author))

/-! ## Helper lemmas and sample data -/

/-- A sample row whose nullable columns are null: its Edit-form defaults
exercise the `?? ""` fallbacks. -/
def lion : Species :=
  { id := 1
    scientific_name := "Panthera leo"
    common_name := some "Lion"
    kingdom := Kingdom.animalia
    total_population := none
    image := none
    description := none
    author := "user-1" }

/-- A sample row owned by a different user. -/
def tiger : Species :=
  { id := 2
    scientific_name := "Panthera tigris"
    common_name := some "Tiger"
    kingdom := Kingdom.animalia
    total_population := some 4500
    image := none
    description := none
    author := "user-2" }

/-- A sample parsed form value. -/
def sampleFormData : FormData :=
  { scientific_name := "Panthera leo"
    common_name := ""
    kingdom := Kingdom.animalia
    total_population := PopValue.emptyStr
    image := ""
    description := "" }

theorem speciesSchemaParse_total_population {i : FormInput} {fd : FormData}
    (h : speciesSchemaParse i = some fd) :
    parseTotalPopulation i.total_population = some fd.total_population := by
  rcases hsn : parseScientificName i.scientific_name with _ | sn <;>
    rcases hk : parseKingdom i.kingdom with _ | k <;>
      rcases htp : parseTotalPopulation i.total_population with _ | tp <;>
        rcases himg : parseImage i.image with _ | img <;>
          simp [speciesSchemaParse, hsn, hk, htp, himg] at h
  simp [← h]

theorem speciesSchemaParse_eq_none_of_tp {i : FormInput}
    (h : parseTotalPopulation i.total_population = none) :
    speciesSchemaParse i = none := by
  rcases hsn : parseScientificName i.scientific_name with _ | sn <;>
    rcases hk : parseKingdom i.kingdom with _ | k <;>
      simp [speciesSchemaParse, hsn, hk, h]

theorem speciesSchemaParse_eq_none_of_image {i : FormInput}
    (h : parseImage i.image = none) :
    speciesSchemaParse i = none := by
  rcases hsn : parseScientificName i.scientific_name with _ | sn <;>
    rcases hk : parseKingdom i.kingdom with _ | k <;>
      rcases htp : parseTotalPopulation i.total_population with _ | tp <;>
        simp [speciesSchemaParse, hsn, hk, htp, h]

theorem checkPositive_pos {n : JSNum} {q : Rat}
    (h : checkPositive n = some (PopValue.num q)) : 0 < q := by
  cases n with
  | nan => simp [checkPositive] at h
  | num r =>
    by_cases hr : 0 < r
    · simp [checkPositive, hr] at h
      exact h ▸ hr
    · simp [checkPositive, hr] at h

theorem parseTotalPopulation_pos {v : PopInput} {q : Rat}
    (h : parseTotalPopulation v = some (PopValue.num q)) : 0 < q := by
  cases v with
  | null => simp [parseTotalPopulation] at h
  | str s =>
    by_cases hs : s = ""
    · simp [parseTotalPopulation, hs] at h
    · exact checkPositive_pos (by simpa [parseTotalPopulation, hs] using h)
  | num r =>
    by_cases hr : r = 0
    · simp [parseTotalPopulation, hr] at h
    · exact checkPositive_pos (by simpa [parseTotalPopulation, hr] using h)

/-! ## The claims -/

/-- C1: the Edit dialog and the Delete control render (are non-null) exactly
when the current user id equals the record's author; when the ids differ
both components return null, so no edit or delete UI is produced. -/
theorem edit_delete_render_iff_author (userId : String) (sp : Species) :
    ((EditSpeciesDialog userId sp).isSome ↔ userId = sp.author) ∧
    ((DeleteSpeciesButton userId sp).isSome ↔ userId = sp.author) ∧
    (EditSpeciesDialog userId sp = none ↔ userId ≠ sp.author) ∧
    (DeleteSpeciesButton userId sp = none ↔ userId ≠ sp.author) := by
  by_cases h : userId = sp.author <;>
    simp [EditSpeciesDialog, DeleteSpeciesButton, h]

/-- C2 (code bug): a malformed image URL fails validation (every string the
URL check rejects is refused), and a null image is accepted — but the empty
string is NOT: zod's `url()` runs before the nullable transform, so the
`""` default the Edit form itself installs for an imageless record
(`species.image ?? ""`, edit.tsx line 61) fails the whole-form validation,
although the spec says an empty image value is accepted. -/
theorem image_empty_string_fails_validation :
    (∀ (i : FormInput) (s : String), i.image = some s → isValidURL s = false →
      speciesSchemaParse i = none) ∧
    parseImage none = some "" ∧
    parseImage (some "not a url") = none ∧
    parseImage (some "") = none ∧
    (editDefaultValues lion).image = some "" ∧
    speciesSchemaParse (editDefaultValues lion) = none := by
  refine ⟨?_, rfl, rfl, rfl, rfl, rfl⟩
  intro i s hs hbad
  exact speciesSchemaParse_eq_none_of_image (by simp [parseImage, hs, hbad])

/-- C4: a form input whose scientific name is empty or whitespace-only
(empty after trimming) fails validation, and `handleSubmit` therefore never
invokes `onSubmit`: no update request, toast or reload is produced. -/
theorem empty_scientific_name_blocks_submit (sp : Species) (userId : String)
    (i : FormInput) (result : Option String)
    (h : jsTrim i.scientific_name = "") :
    speciesSchemaParse i = none ∧
    handleSubmitEffects sp userId i result = [] := by
  have hsn : parseScientificName i.scientific_name = none := by
    simp [parseScientificName, h]
  have hp : speciesSchemaParse i = none := by simp [speciesSchemaParse, hsn]
  exact ⟨hp, by simp [handleSubmitEffects, hp]⟩

theorem empty_scientific_name_blocks_submit_witness :
    speciesSchemaParse
      { scientific_name := "   "
        common_name := none
        kingdom := "Animalia"
        total_population := PopInput.null
        image := none
        description := none } = none ∧
    handleSubmitEffects lion "user-1"
      { scientific_name := "   "
        common_name := none
        kingdom := "Animalia"
        total_population := PopInput.null
        image := none
        description := none } none = [] :=
  empty_scientific_name_blocks_submit lion "user-1"
    { scientific_name := "   "
      common_name := none
      kingdom := "Animalia"
      total_population := PopInput.null
      image := none
      description := none } none (by decide)

/-- C10: a `total_population` entry of the number 0 is falsy, so the schema
coerces it to the empty string and validation succeeds; on submit the
sanitizer turns that empty string into null in the update payload, so a 0
entry silently clears the field rather than failing the positivity check. -/
theorem population_zero_clears_field (i : FormInput) (fd : FormData)
    (h0 : i.total_population = PopInput.num 0)
    (hp : speciesSchemaParse i = some fd) :
    fd.total_population = PopValue.emptyStr ∧
    (sanitizedInput fd).total_population = none ∧
    parseTotalPopulation (PopInput.num 0) = some PopValue.emptyStr := by
  have htp := speciesSchemaParse_total_population hp
  rw [h0] at htp
  have hfd : fd.total_population = PopValue.emptyStr := by
    simpa [parseTotalPopulation] using htp.symm
  exact ⟨hfd, by simp [sanitizedInput, hfd], rfl⟩

theorem population_zero_clears_field_witness :
    sampleFormData.total_population = PopValue.emptyStr ∧
    (sanitizedInput sampleFormData).total_population = none ∧
    parseTotalPopulation (PopInput.num 0) = some PopValue.emptyStr :=
  population_zero_clears_field
    { scientific_name := "Panthera leo"
      common_name := none
      kingdom := "Animalia"
      total_population := PopInput.num 0
      image := none
      description := none } sampleFormData (by decide) (by decide)

/-- The concrete form input refuting the integrality half of the
`total_population` claim: the string `"1.5"`. -/
def nonIntegerPopInput : FormInput :=
  { scientific_name := "Panthera leo"
    common_name := none
    kingdom := "Animalia"
    total_population := PopInput.str "1.5"
    image := none
    description := none }

theorem jsNumber_three_halves : jsNumber "1.5" = JSNum.num (3 / 2) := by
  have h : jsNumber "1.5" = JSNum.num (1 * ((decDigitsVal ['1'] : Rat)
      + (decDigitsVal ['5'] : Rat) / (10 : Rat) ^ (['5'].length))) := rfl
  have h1 : decDigitsVal ['1'] = 1 := rfl
  have h5 : decDigitsVal ['5'] = 5 := rfl
  rw [h, h1, h5]
  norm_num

theorem parseTotalPopulation_three_halves :
    parseTotalPopulation (PopInput.str "1.5") = some (PopValue.num (3 / 2)) := by
  have h : parseTotalPopulation (PopInput.str "1.5")
      = checkPositive (jsNumber "1.5") := rfl
  rw [h, jsNumber_three_halves]
  norm_num [checkPositive]

/-- C3 counterexample: the schema only refines with `val > 0`, never with
integrality, so the input string `"1.5"` passes validation with the
non-integer value 3/2 — refuting "every accepted non-empty value is a
positive integer". -/
theorem total_population_noninteger_accepted :
    speciesSchemaParse nonIntegerPopInput =
      some { scientific_name := "Panthera leo"
             common_name := ""
             kingdom := Kingdom.animalia
             total_population := PopValue.num (3 / 2)
             image := ""
             description := "" } ∧
    ((3 : Rat) / 2).den = 2 := by
  constructor
  · have hsn : parseScientificName "Panthera leo" = some "Panthera leo" := rfl
    have hk : parseKingdom "Animalia" = some Kingdom.animalia := rfl
    have himg : parseImage (none : Option String) = some "" := rfl
    have hcn : parseOptionalText (none : Option String) = "" := rfl
    simp [speciesSchemaParse, nonIntegerPopInput, hsn, hk,
      parseTotalPopulation_three_halves, himg, hcn]
  · norm_num

/-- C3 (amended): the non-numeric string `"abc"` fails validation, every
negative number fails validation, and every accepted non-empty
`total_population` value is a positive number (the schema checks `val > 0`
only, so the value need not be an integer). -/
theorem total_population_validation :
    (∀ i : FormInput, i.total_population = PopInput.str "abc" →
      speciesSchemaParse i = none) ∧
    (∀ (i : FormInput) (q : Rat), i.total_population = PopInput.num q → q < 0 →
      speciesSchemaParse i = none) ∧
    (∀ (i : FormInput) (fd : FormData) (q : Rat), speciesSchemaParse i = some fd →
      fd.total_population = PopValue.num q → 0 < q) := by
  refine ⟨?_, ?_, ?_⟩
  · intro i h
    apply speciesSchemaParse_eq_none_of_tp
    rw [h]; decide
  · intro i q h hq
    apply speciesSchemaParse_eq_none_of_tp
    rw [h]
    have h0 : ¬ q = 0 := ne_of_lt hq
    have h1 : ¬ 0 < q := not_lt.mpr (le_of_lt hq)
    simp [parseTotalPopulation, checkPositive, h0, h1]
  · intro i fd q hp hfd
    have htp := speciesSchemaParse_total_population hp
    rw [hfd] at htp
    exact parseTotalPopulation_pos htp

/-- C5: on an update or delete error the handler shows a transient toast
carrying the backend message verbatim, returns without reloading and
without issuing any further request (exactly one request in the whole
flow), and never writes the in-memory species collection; on success the
page is reloaded. -/
theorem request_error_toast_no_reload (sp : Species) (userId : String)
    (input : FormData) (msg : String) :
    Effect.toastError "Error updating species" msg ∈
      onSubmitEffects sp userId input (some msg) ∧
    Effect.reload ∉ onSubmitEffects sp userId input (some msg) ∧
    countRequests (onSubmitEffects sp userId input (some msg)) = 1 ∧
    (∀ l, Effect.setSpeciesState l ∉ onSubmitEffects sp userId input (some msg)) ∧
    Effect.toastError "Error" msg ∈ handleDeleteEffects sp userId (some msg) ∧
    Effect.reload ∉ handleDeleteEffects sp userId (some msg) ∧
    countRequests (handleDeleteEffects sp userId (some msg)) = 1 ∧
    (∀ l, Effect.setSpeciesState l ∉ handleDeleteEffects sp userId (some msg)) ∧
    Effect.reload ∈ onSubmitEffects sp userId input none ∧
    Effect.reload ∈ handleDeleteEffects sp userId none := by
  refine ⟨?_, ?_, ?_, ?_, ?_, ?_, ?_, ?_, ?_, ?_⟩ <;>
    simp [onSubmitEffects, handleDeleteEffects, countRequests, isRequest]

/-- C6: when no session can be established, `fetchSpecies` pushes the entry
route `"/"` and returns: no species select is issued and the species
collection (and its filtered copy) is left unchanged. -/
theorem fetch_without_session_redirects (q : Except String (Option (List Species)))
    (st : ListState) :
    fetchSpecies none q = [FetchEffect.routerPush "/"] ∧
    FetchEffect.selectSpecies ∉ fetchSpecies none q ∧
    (runEffects st (fetchSpecies none q)).species = st.species ∧
    (runEffects st (fetchSpecies none q)).filteredSpecies = st.filteredSpecies := by
  refine ⟨rfl, ?_, rfl, rfl⟩
  simp [fetchSpecies]

/-- C7: an INSERT notification on the species-table subscription triggers a
full re-fetch (a select of the whole table), and when that re-fetch
succeeds on rows containing the newly inserted record, the visible
(filtered) collection includes that record. -/
theorem insert_notification_triggers_refetch (p : InsertPayload) (s : Session)
    (q : Except String (Option (List Species))) (st : ListState)
    (rows : List Species) (sp : Species) (h : sp ∈ rows) :
    FetchEffect.selectSpecies ∈ handleInsertNotification p (some s) q ∧
    sp ∈ (runEffects st (handleInsertNotification p (some s)
      (Except.ok (some rows)))).filteredSpecies := by
  constructor
  · cases q <;> simp [handleInsertNotification, fetchSpecies]
  · have hfs : (runEffects st (handleInsertNotification p (some s)
        (Except.ok (some rows)))).filteredSpecies = rows := rfl
    rw [hfs]; exact h

theorem insert_notification_triggers_refetch_witness :
    FetchEffect.selectSpecies ∈
      handleInsertNotification ⟨lion⟩ (some ⟨"user-1"⟩) (Except.ok (some [lion])) ∧
    lion ∈ (runEffects ⟨none, [], []⟩ (handleInsertNotification ⟨lion⟩
      (some ⟨"user-1"⟩) (Except.ok (some [lion])))).filteredSpecies :=
  insert_notification_triggers_refetch ⟨lion⟩ ⟨"user-1"⟩
    (Except.ok (some [lion])) ⟨none, [], []⟩ [lion] lion (by simp)

/-- C8: after a successful delete the flow reloads, and the re-fetch from
the backend state the delete produced yields a visible collection in which
no record has the deleted record's id (assuming, as the server guarantees,
that the id determines the row and hence its author). -/
theorem delete_resync_removes_id (sp : Species) (userId : String)
    (rows : List Species) (st : ListState) (s : Session)
    (hAuth : ∀ r ∈ rows, r.id = sp.id → r.author = userId) :
    Effect.reload ∈ handleDeleteEffects sp userId none ∧
    ∀ r ∈ (runEffects st (fetchSpecies (some s)
        (Except.ok (some (applyDelete rows sp.id userId))))).filteredSpecies,
      r.id ≠ sp.id := by
  constructor
  · simp [handleDeleteEffects]
  · have hfs : (runEffects st (fetchSpecies (some s)
        (Except.ok (some (applyDelete rows sp.id userId))))).filteredSpecies
        = applyDelete rows sp.id userId := rfl
    rw [hfs]
    intro r hr hid
    simp [applyDelete, List.mem_filter] at hr
    rcases hr.2 with h2 | h2
    · exact h2 hid
    · exact h2 (hAuth r hr.1 hid)

theorem delete_resync_removes_id_witness :
    Effect.reload ∈ handleDeleteEffects lion "user-1" none ∧
    ∀ r ∈ (runEffects ⟨none, [], []⟩ (fetchSpecies (some ⟨"user-1"⟩)
        (Except.ok (some (applyDelete [lion, tiger] lion.id "user-1"))))).filteredSpecies,
      r.id ≠ lion.id :=
  delete_resync_removes_id lion "user-1" [lion, tiger] ⟨none, [], []⟩
    ⟨"user-1"⟩ (by decide)

/-- C9: both mutating requests carry the id equality filter and the author
equality filter with the current user id, and the backend's application of
such a filtered update or delete leaves every record whose author differs
from that user id unchanged — even if the rendering gate is bypassed. -/
theorem mutation_requests_author_filtered (sp r : Species) (userId : String)
    (input : FormData) (result : Option String) (rows : List Species)
    (id : Int) (p : SanitizedInput)
    (hr : r ∈ rows) (hne : r.author ≠ userId) :
    Effect.updateRequest sp.id userId (sanitizedInput input) ∈
      onSubmitEffects sp userId input result ∧
    Effect.deleteRequest sp.id userId ∈ handleDeleteEffects sp userId result ∧
    updateRow id userId p r = r ∧
    r ∈ applyUpdate rows id userId p ∧
    r ∈ applyDelete rows id userId := by
  have hupd : updateRow id userId p r = r := by
    simp [updateRow, hne]
  refine ⟨?_, ?_, hupd, ?_, ?_⟩
  · cases result <;> simp [onSubmitEffects]
  · cases result <;> simp [handleDeleteEffects]
  · have hm := List.mem_map_of_mem (updateRow id userId p) hr
    rw [hupd] at hm
    exact hm
  · simp [applyDelete, List.mem_filter, hr, hne]

theorem mutation_requests_author_filtered_witness :
    Effect.updateRequest lion.id "user-1" (sanitizedInput sampleFormData) ∈
      onSubmitEffects lion "user-1" sampleFormData none ∧
    Effect.deleteRequest lion.id "user-1" ∈ handleDeleteEffects lion "user-1" none ∧
    updateRow lion.id "user-1" (sanitizedInput sampleFormData) tiger = tiger ∧
    tiger ∈ applyUpdate [tiger] lion.id "user-1" (sanitizedInput sampleFormData) ∧
    tiger ∈ applyDelete [tiger] lion.id "user-1" :=
  mutation_requests_author_filtered lion tiger "user-1" sampleFormData none
    [tiger] lion.id (sanitizedInput sampleFormData) (by simp) (by decide)
